import Mathlib

/-!
Verification of the ScenePulse backend (src/backend/main.py): run registration
with signed-upload-URL issuance, metadata persistence, and run reading.

The Python handlers are shallowly embedded as pure Lean functions.  External
collaborators are modelled explicitly:
* the GCS signed-URL capability is an oracle `SignOracle` mapping a blob name
  and an optional content-type constraint to either a URL or an error message
  (`blob.generate_signed_url` with fixed version v4, method PUT and 30-minute
  expiry; those constants do not vary in the code so they are not parameters);
* Firestore documents are association lists from string keys to `Value`s,
  mirroring the `Dict[str, Any]` literal built by `create_run`;
* side effects (signing calls, Firestore writes) are returned as an explicit
  `Effect` trace so that claims about "no write happened" are statable.

Machine floats appear in the source only as the literal `0.0` written into the
neutral insights placeholder; they are modelled by the exact integer 0.
Timestamps (`datetime.now(timezone.utc)`) are modelled as abstract `Nat`
instants; `isoformat` serialization is modelled as an injective decimal
rendering of that instant.
-/

/-- Values storable in a Firestore document, as used by `create_run`.  The
only nested dict the code ever stores is the fixed-shape insights placeholder
`{"lift_vs_baseline": 0.0, "recommended_action": ..., "summary": ...}`, which
is modelled by the dedicated constructor `vInsights` carrying those three
fields in order. -/
inductive Value where
  | vStr (s : String)
  | vStrList (l : List String)
  | vTime (t : Nat)
  | vNum (n : Int)
  | vInsights (lift_vs_baseline : Int) (recommended_action : String) (summary : String)
deriving DecidableEq, Repr

/-- A Firestore document: ordered key/value pairs, mirroring a Python dict. -/
abbrev Dict := List (String × Value)

/-- Embedding of `fastapi.HTTPException` as raised by the handlers. -/
structure HTTPException where
  status : Nat
  detail : String
deriving DecidableEq, Repr

/-- Embedding of the Pydantic model `SignedURLInfo`. -/
structure SignedURLInfo where
  original_filename : String
  signed_url : String
  storage_path : String
  key : String
deriving DecidableEq, Repr

/-- Embedding of the Pydantic model `RunCreateRequest`.  `EmailStr` is kept as
an opaque string: email syntax validation happens in the framework layer,
before the handler body that is being verified here runs. -/
structure RunCreateRequest where
  project_id : String
  company_name : String
  contact_name : String
  contact_email : String
  contact_phone : String
  creative_id : String
  variant : String
  video_filename : String
  original_filename : Option String
  content_type : String
  label : Option String
  notes : Option String
  doc_filenames : List String
deriving DecidableEq, Repr

/-- Embedding of the Pydantic model `RunCreateResponse`. -/
structure RunCreateResponse where
  run_id : String
  project_id : String
  video_storage_path : String
  doc_storage_paths : List String
  upload_urls : List SignedURLInfo
deriving DecidableEq, Repr

deriving instance DecidableEq for Except

/-- An observable side effect of a handler: a signed-URL generation request
sent to GCS, or a Firestore document write. -/
inductive Effect where
  | signCall (blobName : String) (contentType : Option String)
  | firestoreSet (runId : String) (record : Dict)
deriving DecidableEq, Repr

/-- The signing collaborator: `blob.generate_signed_url` either returns a URL
or raises; the raised exception's message is the `Except.error` payload. -/
abbrev SignOracle := String → Option String → Except String String

/-- Python `str.strip()`: drop whitespace from both ends of the string. -/
def pyStrip (s : String) : String :=
  ⟨((s.data.dropWhile Char.isWhitespace).reverse.dropWhile Char.isWhitespace).reverse⟩

/-- Python `a or b` for an optional string (`None` and `""` are falsy). -/
def pyOr (o : Option String) (d : String) : String :=
  match o with
  | some s => if s = "" then d else s
  | none => d

/-- Python `a or b` for two strings (`""` is falsy). -/
def pyOrStr (a b : String) : String :=
  if a = "" then b else a

/-- The f-string `f"runs/{run_id}/video/{video_filename}"`. -/
def video_blob_name (run_id filename : String) : String :=
  "runs/" ++ run_id ++ "/video/" ++ filename

/-- The f-string `f"runs/{run_id}/docs/{doc_name}"`. -/
def doc_blob_name (run_id filename : String) : String :=
  "runs/" ++ run_id ++ "/docs/" ++ filename

/-- The f-string `f"gs://{UPLOAD_BUCKET}/{blob_name}"`. -/
def gcs_path (bucket blobName : String) : String :=
  "gs://" ++ bucket ++ "/" ++ blobName

/-- The document loop of `create_run` (lines 259-285): for each trimmed
non-empty document filename, in order, derive its blob name and storage path,
request a signed URL (no content-type constraint for documents), and on the
first failure abort with an error naming that document.  `idx` is the running
`enumerate` index used to build the `doc_file_{idx}` key. -/
def signDocs (bucket : String) (oracle : SignOracle) (run_id : String) :
    Nat → List String → Except HTTPException (List SignedURLInfo × List String) × List Effect
  | _, [] => (Except.ok ([], []), [])
  | idx, doc_name :: rest =>
    let bn := doc_blob_name run_id doc_name
    let sp := gcs_path bucket bn
    match oracle bn none with
    | Except.error e =>
        (Except.error ⟨500, "Could not generate doc signed URL for " ++ doc_name ++ ": " ++ e⟩,
         [Effect.signCall bn none])
    | Except.ok url =>
        match signDocs bucket oracle run_id (idx + 1) rest with
        | (Except.error ex, effs) => (Except.error ex, Effect.signCall bn none :: effs)
        | (Except.ok (urls, paths), effs) =>
            (Except.ok (⟨doc_name, url, sp, "doc_file_" ++ Nat.repr idx⟩ :: urls, sp :: paths),
             Effect.signCall bn none :: effs)

/-- The `run_record` dict literal persisted to Firestore (lines 292-317),
entry for entry in source order. -/
def run_record (bucket run_id : String) (now : Nat) (p : RunCreateRequest)
    (video_storage_path : String) (doc_storage_paths doc_filenames : List String) : Dict :=
  [("run_id", Value.vStr run_id),
   ("project_id", Value.vStr p.project_id),
   ("company_name", Value.vStr p.company_name),
   ("contact_name", Value.vStr p.contact_name),
   ("contact_email", Value.vStr p.contact_email),
   ("contact_phone_raw", Value.vStr p.contact_phone),
   ("creative_id", Value.vStr p.creative_id),
   ("variant", Value.vStr p.variant),
   ("label", Value.vStr (pyOr p.label "")),
   ("notes", Value.vStr (pyOr p.notes "")),
   ("original_filename", Value.vStr (pyOr p.original_filename p.video_filename)),
   ("content_type", Value.vStr p.content_type),
   ("status", Value.vStr "upload_urls_issued"),
   ("created_at", Value.vTime now),
   ("video_storage_path", Value.vStr video_storage_path),
   ("doc_storage_paths", Value.vStrList doc_storage_paths),
   ("doc_filenames", Value.vStrList doc_filenames),
   ("upload_bucket", Value.vStr bucket),
   ("insights", Value.vInsights 0 "No recommendation provided." "No summary provided."),
   ("score", Value.vNum 0)]

/-- The handler `create_run` (POST /v1/runs, lines 204-330).  `run_id` and
`now` are the values produced by `uuid.uuid4` and `datetime.now`, passed in
as parameters of the embedding; `oracle` is the signing collaborator.  The
returned trace lists the signing calls and the Firestore write in program
order. -/
def create_run (bucket : String) (oracle : SignOracle) (run_id : String) (now : Nat)
    (p : RunCreateRequest) : Except HTTPException RunCreateResponse × List Effect :=
  let video_filename := pyStrip p.video_filename
  if video_filename = "" then
    (Except.error ⟨400, "video_filename must not be empty"⟩, [])
  else
    let doc_filenames := (p.doc_filenames.map pyStrip).filter (fun f => f ≠ "")
    let vbn := video_blob_name run_id video_filename
    let vsp := gcs_path bucket vbn
    let ct := pyOrStr p.content_type "video/*"
    match oracle vbn (some ct) with
    | Except.error e =>
        (Except.error ⟨500, "Could not generate video signed URL: " ++ e⟩,
         [Effect.signCall vbn (some ct)])
    | Except.ok video_signed_url =>
        match signDocs bucket oracle run_id 0 doc_filenames with
        | (Except.error ex, effs) =>
            (Except.error ex, Effect.signCall vbn (some ct) :: effs)
        | (Except.ok (docUrls, docPaths), effs) =>
            (Except.ok ⟨run_id, p.project_id, vsp, docPaths,
               ⟨video_filename, video_signed_url, vsp, "video_file"⟩ :: docUrls⟩,
             Effect.signCall vbn (some ct) ::
               (effs ++ [Effect.firestoreSet run_id
                 (run_record bucket run_id now p vsp docPaths doc_filenames)]))

/-- The metadata store: Firestore's "runs" collection as an association list
from document id to document. -/
abbrev Store := List (String × Dict)

/-- Python dict assignment `data[k] = v`: replace in place, else append. -/
def dictSet (d : Dict) (k : String) (v : Value) : Dict :=
  if d.any (fun kv => kv.1 = k) then
    d.map (fun kv => if kv.1 = k then (k, v) else kv)
  else d ++ [(k, v)]

/-- Dict key access `d.get(k)`. -/
def dictGet (d : Dict) (k : String) : Option Value :=
  match d with
  | [] => none
  | kv :: rest => if kv.1 = k then some kv.2 else dictGet rest k

/-- Firestore `document(id).set(rec)`: overwrite the document with that id. -/
def storeSet (s : Store) (id : String) (rec : Dict) : Store :=
  if s.any (fun e => e.1 = id) then
    s.map (fun e => if e.1 = id then (id, rec) else e)
  else s ++ [(id, rec)]

/-- Firestore `document(id).get()`. -/
def storeGet (s : Store) (id : String) : Option Dict :=
  match s with
  | [] => none
  | e :: rest => if e.1 = id then some e.2 else storeGet rest id

/-- `_serialize_datetime` (lines 154-157): render a timestamp as its
timezone-aware ISO-8601 text.  On the abstract `Nat` instants of this model
that rendering is the injective decimal form of the instant. -/
def _serialize_datetime (t : Nat) : String :=
  Nat.repr t

/-- `_serialize_firestore_doc` (lines 160-166): serialize every datetime
value, then set `data["run_id"] = doc.id`. -/
def _serialize_firestore_doc (id : String) (data : Dict) : Dict :=
  dictSet
    (data.map (fun kv =>
      match kv.2 with
      | Value.vTime t => (kv.1, Value.vStr (_serialize_datetime t))
      | _ => kv))
    "run_id" (Value.vStr id)

/-- The `created_at` sort key Firestore's `order_by` uses for a document. -/
def createdAt (e : String × Dict) : Nat :=
  match dictGet e.2 "created_at" with
  | some (Value.vTime t) => t
  | _ => 0

/-- The handler `list_runs` (GET /v1/runs, lines 338-349): order the
collection by `created_at` descending, take the literal limit 50, and
serialize each document. -/
def list_runs (store : Store) : List Dict :=
  ((store.mergeSort (fun a b => decide (createdAt b ≤ createdAt a))).take 50).map
    (fun e => _serialize_firestore_doc e.1 e.2)

/-- The /v1/runs route as invocable over HTTP.  The handler signature
declares no `limit` parameter, and FastAPI discards query parameters that no
handler parameter is declared for, so a requested `limit` never reaches the
handler. -/
def list_runs_endpoint (_requestedLimit : Option Nat) (store : Store) : List Dict :=
  list_runs store

/-- The handler `get_run` (GET /v1/runs/{run_id}, lines 357-363). -/
def get_run (store : Store) (run_id : String) : Except HTTPException Dict :=
  match storeGet store run_id with
  | none => Except.error ⟨404, "Run not found"⟩
  | some data => Except.ok (_serialize_firestore_doc run_id data)

/-- The Firestore writes contained in an effect trace, in order. -/
def writtenRecords (effs : List Effect) : List (String × Dict) :=
  effs.filterMap (fun e =>
    match e with
    | Effect.firestoreSet id rec => some (id, rec)
    | _ => none)

/-- A two-document store whose records are already in descending
`created_at` order. -/
def c5_store : Store :=
  [("rb", [("created_at", Value.vTime 2)]), ("ra", [("created_at", Value.vTime 1)])]

/-- Decimal value of a digit character produced by `Nat.digitChar`. -/
def decodeDigit (c : Char) : Nat :=
  c.toNat - 48

/-- Numeric value of a big-endian list of decimal digit characters. -/
def valChars (l : List Char) : Nat :=
  l.foldl (fun a c => a * 10 + decodeDigit c) 0

theorem decode_digitChar (d : Nat) (h : d < 10) : decodeDigit (Nat.digitChar d) = d := by
  interval_cases d <;> rfl

theorem toDigitsCore_acc (b : Nat) :
    ∀ (f n : Nat) (acc : List Char),
      Nat.toDigitsCore b f n acc = Nat.toDigitsCore b f n [] ++ acc := by
  intro f
  induction f with
  | zero => intro n acc; simp [Nat.toDigitsCore]
  | succ f ih =>
    intro n acc
    simp only [Nat.toDigitsCore]
    by_cases h : n / b = 0
    · simp [h]
    · simp only [h, if_false]
      rw [ih (n / b) (Nat.digitChar (n % b) :: acc), ih (n / b) [Nat.digitChar (n % b)]]
      simp

theorem valChars_append (l : List Char) (c : Char) :
    valChars (l ++ [c]) = valChars l * 10 + decodeDigit c := by
  simp [valChars, List.foldl_append]

theorem valChars_toDigitsCore :
    ∀ (f n : Nat), n < 10 ^ f → valChars (Nat.toDigitsCore 10 f n []) = n := by
  intro f
  induction f with
  | zero =>
    intro n h
    interval_cases n
    rfl
  | succ f ih =>
    intro n h
    simp only [Nat.toDigitsCore]
    by_cases h0 : n / 10 = 0
    · rw [if_pos h0]
      have hm : n % 10 = n := Nat.mod_eq_of_lt (by omega)
      show valChars [Nat.digitChar (n % 10)] = n
      have hv : valChars [Nat.digitChar (n % 10)] = decodeDigit (Nat.digitChar (n % 10)) := by
        simp [valChars]
      rw [hv, decode_digitChar _ (by omega), hm]
    · rw [if_neg h0, toDigitsCore_acc 10 f (n / 10) [Nat.digitChar (n % 10)], valChars_append]
      have hlt : n / 10 < 10 ^ f :=
        (Nat.div_lt_iff_lt_mul (by norm_num)).mpr (by rw [← pow_succ]; exact h)
      rw [ih (n / 10) hlt, decode_digitChar _ (by omega)]
      omega

theorem repr_injective : Function.Injective Nat.repr := by
  intro m n h
  have hdata : Nat.toDigits 10 m = Nat.toDigits 10 n := by
    have h2 := congrArg String.data h
    simpa [Nat.repr, List.asString] using h2
  have hm := valChars_toDigitsCore (m + 1) m
    (lt_of_lt_of_le (Nat.lt_pow_self (by norm_num) m)
      (Nat.pow_le_pow_right (by norm_num) (Nat.le_succ m)))
  have hn := valChars_toDigitsCore (n + 1) n
    (lt_of_lt_of_le (Nat.lt_pow_self (by norm_num) n)
      (Nat.pow_le_pow_right (by norm_num) (Nat.le_succ n)))
  have hmd : Nat.toDigits 10 m = Nat.toDigitsCore 10 (m + 1) m [] := rfl
  have hnd : Nat.toDigits 10 n = Nat.toDigitsCore 10 (n + 1) n [] := rfl
  rw [hmd] at hdata
  rw [hnd] at hdata
  rw [← hm, hdata, hn]

theorem docKey_injective : Function.Injective (fun i : Nat => "doc_file_" ++ Nat.repr i) := by
  intro i j h
  apply repr_injective
  have h2 := congrArg String.data h
  simp only [String.data_append] at h2
  have h3 := List.append_cancel_left h2
  cases hi : Nat.repr i with
  | mk di =>
    cases hj : Nat.repr j with
    | mk dj =>
      rw [hi, hj] at h3
      simp only [] at h3
      exact congrArg String.mk h3

theorem docKey_ne_video (s : String) : "doc_file_" ++ s ≠ "video_file" := by
  intro h
  have h2 := congrArg (fun t => t.data.head?) h
  have hd : ("doc_file_" : String).data = ['d', 'o', 'c', '_', 'f', 'i', 'l', 'e', '_'] := rfl
  have hv : ("video_file" : String).data = ['v', 'i', 'd', 'e', 'o', '_', 'f', 'i', 'l', 'e'] := rfl
  simp only [String.data_append, hd, hv] at h2
  simp at h2

theorem signDocs_ok (bucket : String) (oracle : SignOracle) (run_id : String) :
    ∀ (docs : List String) (idx : Nat) (urls : List SignedURLInfo) (paths : List String)
      (effs : List Effect),
      signDocs bucket oracle run_id idx docs = (Except.ok (urls, paths), effs) →
      paths = docs.map (fun d => gcs_path bucket (doc_blob_name run_id d)) ∧
      urls.map SignedURLInfo.storage_path = paths ∧
      urls.map SignedURLInfo.original_filename = docs ∧
      urls.map SignedURLInfo.key =
        (List.range' idx docs.length).map (fun i => "doc_file_" ++ Nat.repr i) ∧
      effs = docs.map (fun d => Effect.signCall (doc_blob_name run_id d) none) := by
  intro docs
  induction docs with
  | nil =>
    intro idx urls paths effs h
    simp only [signDocs, Prod.mk.injEq, Except.ok.injEq] at h
    obtain ⟨⟨h1, h2⟩, h3⟩ := h
    subst h1
    subst h2
    subst h3
    simp [List.range']
  | cons d rest ih =>
    intro idx urls paths effs h
    simp only [signDocs] at h
    cases ho : oracle (doc_blob_name run_id d) none with
    | error e =>
      rw [ho] at h
      simp at h
    | ok url =>
      rw [ho] at h
      rcases hrec : signDocs bucket oracle run_id (idx + 1) rest with ⟨res, effs2⟩
      rw [hrec] at h
      cases res with
      | error ex => simp at h
      | ok pr =>
        rcases pr with ⟨urls2, paths2⟩
        simp only [Prod.mk.injEq, Except.ok.injEq] at h
        obtain ⟨⟨hu, hp⟩, he⟩ := h
        obtain ⟨p1, p2, p3, p4, p5⟩ := ih (idx + 1) urls2 paths2 effs2 hrec
        subst hu
        subst hp
        subst he
        refine ⟨?_, ?_, ?_, ?_, ?_⟩
        · simp [p1]
        · simp [p2]
        · simp [p3]
        · simp [p4, List.range']
        · simp [p5]

theorem signDocs_error (bucket : String) (oracle : SignOracle) (run_id : String) :
    ∀ (docs : List String) (idx : Nat) (ex : HTTPException) (effs : List Effect),
      signDocs bucket oracle run_id idx docs = (Except.error ex, effs) →
      (∃ d e, d ∈ docs ∧
        oracle (doc_blob_name run_id d) none = Except.error e ∧
        ex = ⟨500, "Could not generate doc signed URL for " ++ d ++ ": " ++ e⟩) ∧
      writtenRecords effs = [] := by
  intro docs
  induction docs with
  | nil =>
    intro idx ex effs h
    simp [signDocs] at h
  | cons d rest ih =>
    intro idx ex effs h
    simp only [signDocs] at h
    cases ho : oracle (doc_blob_name run_id d) none with
    | error e =>
      rw [ho] at h
      simp only [Prod.mk.injEq, Except.error.injEq] at h
      obtain ⟨h1, h2⟩ := h
      subst h1
      subst h2
      exact ⟨⟨d, e, List.mem_cons_self d rest, ho, rfl⟩, rfl⟩
    | ok url =>
      rw [ho] at h
      rcases hrec : signDocs bucket oracle run_id (idx + 1) rest with ⟨res, effs2⟩
      rw [hrec] at h
      cases res with
      | error ex2 =>
        simp only [Prod.mk.injEq, Except.error.injEq] at h
        obtain ⟨h1, h2⟩ := h
        subst h1
        subst h2
        obtain ⟨⟨d2, e2, hmem, hor, hex⟩, heff⟩ := ih (idx + 1) _ _ hrec
        refine ⟨⟨d2, e2, List.mem_cons_of_mem d hmem, hor, hex⟩, ?_⟩
        simpa [writtenRecords] using heff
      | ok pr =>
        rcases pr with ⟨urls2, paths2⟩
        simp at h

theorem signDocs_total (bucket : String) (oracle : SignOracle) (run_id : String)
    (hok : ∀ n c, ∃ u, oracle n c = Except.ok u) :
    ∀ (docs : List String) (idx : Nat),
      ∃ urls paths effs,
        signDocs bucket oracle run_id idx docs = (Except.ok (urls, paths), effs) := by
  intro docs
  induction docs with
  | nil => intro idx; exact ⟨[], [], [], rfl⟩
  | cons d rest ih =>
    intro idx
    obtain ⟨u, hu⟩ := hok (doc_blob_name run_id d) none
    obtain ⟨urls, paths, effs, hrec⟩ := ih (idx + 1)
    refine ⟨⟨d, u, gcs_path bucket (doc_blob_name run_id d), "doc_file_" ++ Nat.repr idx⟩ :: urls,
      gcs_path bucket (doc_blob_name run_id d) :: paths,
      Effect.signCall (doc_blob_name run_id d) none :: effs, ?_⟩
    simp only [signDocs]
    rw [hu, hrec]

theorem signDocs_effects_signs (bucket : String) (oracle : SignOracle) (run_id : String) :
    ∀ (docs : List String) (idx : Nat),
      writtenRecords (signDocs bucket oracle run_id idx docs).2 = [] := by
  intro docs
  induction docs with
  | nil => intro idx; rfl
  | cons d rest ih =>
    intro idx
    simp only [signDocs]
    cases ho : oracle (doc_blob_name run_id d) none with
    | error e => rfl
    | ok url =>
      rcases hrec : signDocs bucket oracle run_id (idx + 1) rest with ⟨res, effs2⟩
      have h2 : writtenRecords effs2 = [] := by
        have := ih (idx + 1)
        rw [hrec] at this
        exact this
      cases res with
      | error ex => simpa [writtenRecords] using h2
      | ok pr => rcases pr with ⟨urls2, paths2⟩; simpa [writtenRecords] using h2

theorem create_run_ok (bucket : String) (oracle : SignOracle) (run_id : String) (now : Nat)
    (p : RunCreateRequest) (resp : RunCreateResponse) (effs : List Effect)
    (h : create_run bucket oracle run_id now p = (Except.ok resp, effs)) :
    ∃ vurl docUrls docPaths docEffs,
      pyStrip p.video_filename ≠ "" ∧
      oracle (video_blob_name run_id (pyStrip p.video_filename))
          (some (pyOrStr p.content_type "video/*")) = Except.ok vurl ∧
      signDocs bucket oracle run_id 0 ((p.doc_filenames.map pyStrip).filter (fun f => f ≠ "")) =
        (Except.ok (docUrls, docPaths), docEffs) ∧
      resp = ⟨run_id, p.project_id,
        gcs_path bucket (video_blob_name run_id (pyStrip p.video_filename)), docPaths,
        ⟨pyStrip p.video_filename, vurl,
          gcs_path bucket (video_blob_name run_id (pyStrip p.video_filename)),
          "video_file"⟩ :: docUrls⟩ ∧
      effs = Effect.signCall (video_blob_name run_id (pyStrip p.video_filename))
          (some (pyOrStr p.content_type "video/*")) ::
        (docEffs ++ [Effect.firestoreSet run_id
          (run_record bucket run_id now p
            (gcs_path bucket (video_blob_name run_id (pyStrip p.video_filename)))
            docPaths ((p.doc_filenames.map pyStrip).filter (fun f => f ≠ "")))]) := by
  by_cases hv : pyStrip p.video_filename = ""
  · simp [create_run, hv] at h
  · simp only [create_run] at h
    rw [if_neg hv] at h
    cases ho : oracle (video_blob_name run_id (pyStrip p.video_filename))
        (some (pyOrStr p.content_type "video/*")) with
    | error e =>
      rw [ho] at h
      simp at h
    | ok vurl =>
      rw [ho] at h
      rcases hrec : signDocs bucket oracle run_id 0
          ((p.doc_filenames.map pyStrip).filter (fun f => f ≠ "")) with ⟨res, docEffs⟩
      rw [hrec] at h
      cases res with
      | error ex => simp at h
      | ok pr =>
        rcases pr with ⟨docUrls, docPaths⟩
        simp only [Prod.mk.injEq, Except.ok.injEq] at h
        obtain ⟨h1, h2⟩ := h
        exact ⟨vurl, docUrls, docPaths, docEffs, hv, rfl, rfl, h1.symm, h2.symm⟩

theorem create_run_error (bucket : String) (oracle : SignOracle) (run_id : String) (now : Nat)
    (p : RunCreateRequest) (ex : HTTPException) (effs : List Effect)
    (h : create_run bucket oracle run_id now p = (Except.error ex, effs)) :
    writtenRecords effs = [] ∧
    (ex = ⟨400, "video_filename must not be empty"⟩ ∨
     (∃ e, ex = ⟨500, "Could not generate video signed URL: " ++ e⟩) ∨
     (∃ d e, d ∈ (p.doc_filenames.map pyStrip).filter (fun f => f ≠ "") ∧
        oracle (doc_blob_name run_id d) none = Except.error e ∧
        ex = ⟨500, "Could not generate doc signed URL for " ++ d ++ ": " ++ e⟩)) := by
  by_cases hv : pyStrip p.video_filename = ""
  · simp only [create_run] at h
    rw [if_pos hv] at h
    simp only [Prod.mk.injEq, Except.error.injEq] at h
    obtain ⟨h1, h2⟩ := h
    subst h1
    subst h2
    exact ⟨rfl, Or.inl rfl⟩
  · simp only [create_run] at h
    rw [if_neg hv] at h
    cases ho : oracle (video_blob_name run_id (pyStrip p.video_filename))
        (some (pyOrStr p.content_type "video/*")) with
    | error e =>
      rw [ho] at h
      simp only [Prod.mk.injEq, Except.error.injEq] at h
      obtain ⟨h1, h2⟩ := h
      subst h1
      subst h2
      exact ⟨rfl, Or.inr (Or.inl ⟨e, rfl⟩)⟩
    | ok vurl =>
      rw [ho] at h
      rcases hrec : signDocs bucket oracle run_id 0
          ((p.doc_filenames.map pyStrip).filter (fun f => f ≠ "")) with ⟨res, docEffs⟩
      rw [hrec] at h
      cases res with
      | error ex2 =>
        simp only [Prod.mk.injEq, Except.error.injEq] at h
        obtain ⟨h1, h2⟩ := h
        subst h1
        subst h2
        obtain ⟨⟨d, e, hmem, hor, hex⟩, heff⟩ := signDocs_error bucket oracle run_id _ 0 _ _ hrec
        refine ⟨?_, Or.inr (Or.inr ⟨d, e, hmem, hor, hex⟩)⟩
        simpa [writtenRecords] using heff
      | ok pr =>
        rcases pr with ⟨docUrls, docPaths⟩
        simp at h

/-- C1 (amended): every signing failure (video or document) aborts the whole
registration with no metadata write; a document failure's error carries the
failing document's filename, while a video failure's error identifies the
video step but not the video filename. -/
theorem c1_signing_failure_aborts (bucket : String) (oracle : SignOracle) (run_id : String)
    (now : Nat) (p : RunCreateRequest) (ex : HTTPException) (effs : List Effect)
    (h : create_run bucket oracle run_id now p = (Except.error ex, effs)) :
    writtenRecords effs = [] ∧
    (ex = ⟨400, "video_filename must not be empty"⟩ ∨
     (∃ e, ex = ⟨500, "Could not generate video signed URL: " ++ e⟩) ∨
     (∃ d e, d ∈ (p.doc_filenames.map pyStrip).filter (fun f => f ≠ "") ∧
        oracle (doc_blob_name run_id d) none = Except.error e ∧
        ex = ⟨500, "Could not generate doc signed URL for " ++ d ++ ": " ++ e⟩)) :=
  create_run_error bucket oracle run_id now p ex effs h

/-- C1 (counterexample to the claim as stated): a registration whose video
signing fails does abort with no metadata write, but its error detail does
not contain the video filename `clip.mp4`, so the error does not identify
the specific filename that failed. -/
theorem c1_counterexample :
    (create_run "b" (fun _ _ => Except.error "boom") "runX" 0
        ⟨"p", "co", "cn", "e@x.com", "ph", "cr", "A", "clip.mp4", none, "video/mp4",
         none, none, []⟩).1 =
      Except.error ⟨500, "Could not generate video signed URL: boom"⟩ ∧
    ¬ List.IsInfix ("clip.mp4" : String).data
        ("Could not generate video signed URL: boom" : String).data := by
  exact ⟨by decide, by decide⟩

/-- C1 (witness): the amended theorem applied to a run whose second signing
call (the first document) fails. -/
theorem c1_signing_failure_aborts_witness :
    writtenRecords [Effect.signCall "runs/runW/video/v.mp4" (some "video/mp4"),
        Effect.signCall "runs/runW/docs/a.pdf" none] = [] ∧
    ((⟨500, "Could not generate doc signed URL for a.pdf: boom"⟩ : HTTPException) =
        ⟨400, "video_filename must not be empty"⟩ ∨
     (∃ e, (⟨500, "Could not generate doc signed URL for a.pdf: boom"⟩ : HTTPException) =
        ⟨500, "Could not generate video signed URL: " ++ e⟩) ∨
     (∃ d e, d ∈ (((["a.pdf", "b.pdf"] : List String).map pyStrip).filter (fun f => f ≠ "")) ∧
        (fun (_ : String) (c : Option String) =>
          match c with
          | some _ => Except.ok "u"
          | none => (Except.error "boom" : Except String String)) (doc_blob_name "runW" d) none =
            Except.error e ∧
        (⟨500, "Could not generate doc signed URL for a.pdf: boom"⟩ : HTTPException) =
          ⟨500, "Could not generate doc signed URL for " ++ d ++ ": " ++ e⟩)) :=
  c1_signing_failure_aborts "b"
    (fun _ c =>
      match c with
      | some _ => Except.ok "u"
      | none => Except.error "boom")
    "runW" 0
    ⟨"p", "co", "cn", "e@x.com", "ph", "cr", "A", "v.mp4", none, "video/mp4",
     none, none, ["a.pdf", "b.pdf"]⟩
    ⟨500, "Could not generate doc signed URL for a.pdf: boom"⟩
    [Effect.signCall "runs/runW/video/v.mp4" (some "video/mp4"),
     Effect.signCall "runs/runW/docs/a.pdf" none]
    (by decide)

/-- C2: for every successful registration, `upload_urls` has `1 + k` entries
and `doc_storage_paths` has `k` entries, where `k` is the number of document
filenames that are non-empty after trimming. -/
theorem c2_response_counts (bucket : String) (oracle : SignOracle) (run_id : String) (now : Nat)
    (p : RunCreateRequest) (resp : RunCreateResponse) (effs : List Effect)
    (h : create_run bucket oracle run_id now p = (Except.ok resp, effs)) :
    resp.upload_urls.length =
      1 + ((p.doc_filenames.map pyStrip).filter (fun f => f ≠ "")).length ∧
    resp.doc_storage_paths.length =
      ((p.doc_filenames.map pyStrip).filter (fun f => f ≠ "")).length := by
  obtain ⟨vurl, docUrls, docPaths, docEffs, hv, ho, hrec, hresp, heffs⟩ :=
    create_run_ok bucket oracle run_id now p resp effs h
  obtain ⟨p1, p2, p3, p4, p5⟩ := signDocs_ok bucket oracle run_id _ 0 docUrls docPaths docEffs hrec
  subst hresp
  have hlen : docUrls.length =
      ((p.doc_filenames.map pyStrip).filter (fun f => f ≠ "")).length := by
    have h3 := congrArg List.length p3
    simpa using h3
  refine ⟨?_, ?_⟩
  · simp only [List.length_cons, hlen]
    omega
  · rw [p1]
    simp

/-- C2 (witness): the count theorem applied to a concrete registration with
two non-empty document filenames (one empty entry dropped). -/
theorem c2_response_counts_witness :
    (RunCreateResponse.mk "r2" "p" "gs://b/runs/r2/video/v.mp4"
        ["gs://b/runs/r2/docs/a.pdf", "gs://b/runs/r2/docs/b.pdf"]
        [⟨"v.mp4", "u", "gs://b/runs/r2/video/v.mp4", "video_file"⟩,
         ⟨"a.pdf", "u", "gs://b/runs/r2/docs/a.pdf", "doc_file_0"⟩,
         ⟨"b.pdf", "u", "gs://b/runs/r2/docs/b.pdf", "doc_file_1"⟩]).upload_urls.length =
      1 + (((["a.pdf", "", "b.pdf"] : List String).map pyStrip).filter (fun f => f ≠ "")).length ∧
    (RunCreateResponse.mk "r2" "p" "gs://b/runs/r2/video/v.mp4"
        ["gs://b/runs/r2/docs/a.pdf", "gs://b/runs/r2/docs/b.pdf"]
        [⟨"v.mp4", "u", "gs://b/runs/r2/video/v.mp4", "video_file"⟩,
         ⟨"a.pdf", "u", "gs://b/runs/r2/docs/a.pdf", "doc_file_0"⟩,
         ⟨"b.pdf", "u", "gs://b/runs/r2/docs/b.pdf", "doc_file_1"⟩]).doc_storage_paths.length =
      (((["a.pdf", "", "b.pdf"] : List String).map pyStrip).filter (fun f => f ≠ "")).length :=
  c2_response_counts "b" (fun _ _ => Except.ok "u") "r2" 0
    ⟨"p", "co", "cn", "e@x.com", "ph", "cr", "A", "v.mp4", none, "video/mp4",
     none, none, ["a.pdf", "", "b.pdf"]⟩
    (RunCreateResponse.mk "r2" "p" "gs://b/runs/r2/video/v.mp4"
        ["gs://b/runs/r2/docs/a.pdf", "gs://b/runs/r2/docs/b.pdf"]
        [⟨"v.mp4", "u", "gs://b/runs/r2/video/v.mp4", "video_file"⟩,
         ⟨"a.pdf", "u", "gs://b/runs/r2/docs/a.pdf", "doc_file_0"⟩,
         ⟨"b.pdf", "u", "gs://b/runs/r2/docs/b.pdf", "doc_file_1"⟩])
    (create_run "b" (fun _ _ => Except.ok "u") "r2" 0
      ⟨"p", "co", "cn", "e@x.com", "ph", "cr", "A", "v.mp4", none, "video/mp4",
       none, none, ["a.pdf", "", "b.pdf"]⟩).2
    (by decide)

/-- C3: for every successful registration, the `key` fields of `upload_urls`
are exactly `video_file, doc_file_0, ..., doc_file_{k-1}` in that order, with
no gaps and no duplicates, the doc indices following input order after
dropping empties. -/
theorem c3_upload_url_keys (bucket : String) (oracle : SignOracle) (run_id : String) (now : Nat)
    (p : RunCreateRequest) (resp : RunCreateResponse) (effs : List Effect)
    (h : create_run bucket oracle run_id now p = (Except.ok resp, effs)) :
    resp.upload_urls.map SignedURLInfo.key =
      "video_file" ::
        (List.range ((p.doc_filenames.map pyStrip).filter (fun f => f ≠ "")).length).map
          (fun i => "doc_file_" ++ Nat.repr i) ∧
    (resp.upload_urls.map SignedURLInfo.key).Nodup := by
  obtain ⟨vurl, docUrls, docPaths, docEffs, hv, ho, hrec, hresp, heffs⟩ :=
    create_run_ok bucket oracle run_id now p resp effs h
  obtain ⟨p1, p2, p3, p4, p5⟩ := signDocs_ok bucket oracle run_id _ 0 docUrls docPaths docEffs hrec
  subst hresp
  refine ⟨?_, ?_⟩
  · simp only [List.map_cons]
    rw [p4, List.range_eq_range']
  · simp only [List.map_cons]
    rw [p4]
    refine List.Pairwise.cons ?_ ?_
    · intro k hk h2
      rw [← List.range_eq_range'] at hk
      obtain ⟨i, hi, hik⟩ := List.mem_map.mp hk
      exact docKey_ne_video (Nat.repr i) (hik.trans h2.symm)
    · rw [← List.range_eq_range']
      exact (List.nodup_range _).map docKey_injective

/-- C3 (witness): the key-sequence theorem applied to a concrete registration
with two non-empty document filenames. -/
theorem c3_upload_url_keys_witness :
    (RunCreateResponse.mk "r3" "p" "gs://b/runs/r3/video/v.mp4"
        ["gs://b/runs/r3/docs/a.pdf", "gs://b/runs/r3/docs/b.pdf"]
        [⟨"v.mp4", "u", "gs://b/runs/r3/video/v.mp4", "video_file"⟩,
         ⟨"a.pdf", "u", "gs://b/runs/r3/docs/a.pdf", "doc_file_0"⟩,
         ⟨"b.pdf", "u", "gs://b/runs/r3/docs/b.pdf", "doc_file_1"⟩]).upload_urls.map
        SignedURLInfo.key =
      "video_file" ::
        (List.range
            (((["a.pdf", "", "b.pdf"] : List String).map pyStrip).filter
              (fun f => f ≠ "")).length).map (fun i => "doc_file_" ++ Nat.repr i) ∧
    ((RunCreateResponse.mk "r3" "p" "gs://b/runs/r3/video/v.mp4"
        ["gs://b/runs/r3/docs/a.pdf", "gs://b/runs/r3/docs/b.pdf"]
        [⟨"v.mp4", "u", "gs://b/runs/r3/video/v.mp4", "video_file"⟩,
         ⟨"a.pdf", "u", "gs://b/runs/r3/docs/a.pdf", "doc_file_0"⟩,
         ⟨"b.pdf", "u", "gs://b/runs/r3/docs/b.pdf", "doc_file_1"⟩]).upload_urls.map
        SignedURLInfo.key).Nodup :=
  c3_upload_url_keys "b" (fun _ _ => Except.ok "u") "r3" 0
    ⟨"p", "co", "cn", "e@x.com", "ph", "cr", "A", "v.mp4", none, "video/mp4",
     none, none, ["a.pdf", "", "b.pdf"]⟩
    (RunCreateResponse.mk "r3" "p" "gs://b/runs/r3/video/v.mp4"
        ["gs://b/runs/r3/docs/a.pdf", "gs://b/runs/r3/docs/b.pdf"]
        [⟨"v.mp4", "u", "gs://b/runs/r3/video/v.mp4", "video_file"⟩,
         ⟨"a.pdf", "u", "gs://b/runs/r3/docs/a.pdf", "doc_file_0"⟩,
         ⟨"b.pdf", "u", "gs://b/runs/r3/docs/b.pdf", "doc_file_1"⟩])
    (create_run "b" (fun _ _ => Except.ok "u") "r3" 0
      ⟨"p", "co", "cn", "e@x.com", "ph", "cr", "A", "v.mp4", none, "video/mp4",
       none, none, ["a.pdf", "", "b.pdf"]⟩).2
    (by decide)

theorem writtenRecords_cons_sign (n : String) (c : Option String) (l : List Effect) :
    writtenRecords (Effect.signCall n c :: l) = writtenRecords l :=
  rfl

theorem writtenRecords_append (l1 l2 : List Effect) :
    writtenRecords (l1 ++ l2) = writtenRecords l1 ++ writtenRecords l2 :=
  List.filterMap_append _ _ _

theorem create_run_ok_written (bucket : String) (oracle : SignOracle) (run_id : String)
    (now : Nat) (p : RunCreateRequest) (resp : RunCreateResponse) (effs : List Effect)
    (h : create_run bucket oracle run_id now p = (Except.ok resp, effs)) :
    writtenRecords effs =
      [(run_id, run_record bucket run_id now p
        (gcs_path bucket (video_blob_name run_id (pyStrip p.video_filename)))
        resp.doc_storage_paths
        ((p.doc_filenames.map pyStrip).filter (fun f => f ≠ "")))] := by
  obtain ⟨vurl, docUrls, docPaths, docEffs, hv, ho, hrec, hresp, heffs⟩ :=
    create_run_ok bucket oracle run_id now p resp effs h
  have hde : writtenRecords docEffs = [] := by
    have h5 := signDocs_effects_signs bucket oracle run_id
      ((p.doc_filenames.map pyStrip).filter (fun f => f ≠ "")) 0
    rw [hrec] at h5
    exact h5
  subst hresp
  subst heffs
  rw [writtenRecords_cons_sign, writtenRecords_append, hde]
  rfl

/-- C4 (counterexample to the claim as stated): with the 10-digit input
`"555-987-1234"`, the persisted record stores the raw value verbatim under
`contact_phone_raw`, has no `contact_phone` key at all, and no field of the
record holds the normalized form `"(555) 987-1234"` — the code performs no
phone normalization. -/
theorem c4_counterexample :
    writtenRecords (create_run "b" (fun _ _ => Except.ok "u") "r4" 0
        ⟨"p", "co", "cn", "e@x.com", "555-987-1234", "cr", "A", "v.mp4", none, "video/mp4",
         none, none, []⟩).2 =
      [("r4", run_record "b" "r4" 0
        ⟨"p", "co", "cn", "e@x.com", "555-987-1234", "cr", "A", "v.mp4", none, "video/mp4",
         none, none, []⟩ "gs://b/runs/r4/video/v.mp4" [] [])] ∧
    dictGet (run_record "b" "r4" 0
        ⟨"p", "co", "cn", "e@x.com", "555-987-1234", "cr", "A", "v.mp4", none, "video/mp4",
         none, none, []⟩ "gs://b/runs/r4/video/v.mp4" [] []) "contact_phone_raw" =
      some (Value.vStr "555-987-1234") ∧
    dictGet (run_record "b" "r4" 0
        ⟨"p", "co", "cn", "e@x.com", "555-987-1234", "cr", "A", "v.mp4", none, "video/mp4",
         none, none, []⟩ "gs://b/runs/r4/video/v.mp4" [] []) "contact_phone" = none ∧
    (run_record "b" "r4" 0
        ⟨"p", "co", "cn", "e@x.com", "555-987-1234", "cr", "A", "v.mp4", none, "video/mp4",
         none, none, []⟩ "gs://b/runs/r4/video/v.mp4" [] []).all
      (fun kv => decide (kv.2 ≠ Value.vStr "(555) 987-1234")) = true := by
  exact ⟨by decide, by decide, by decide, by decide⟩

/-- C4 (amended): for every successful registration, the persisted record
stores the caller's contact phone verbatim in `contact_phone_raw`; no
normalization is applied and no normalized phone field is persisted, for any
input shape. -/
theorem c4_phone_stored_verbatim (bucket : String) (oracle : SignOracle) (run_id : String)
    (now : Nat) (p : RunCreateRequest) (resp : RunCreateResponse) (effs : List Effect)
    (h : create_run bucket oracle run_id now p = (Except.ok resp, effs)) :
    ∃ rec, writtenRecords effs = [(run_id, rec)] ∧
      dictGet rec "contact_phone_raw" = some (Value.vStr p.contact_phone) ∧
      dictGet rec "contact_phone" = none := by
  refine ⟨run_record bucket run_id now p
      (gcs_path bucket (video_blob_name run_id (pyStrip p.video_filename)))
      resp.doc_storage_paths
      ((p.doc_filenames.map pyStrip).filter (fun f => f ≠ "")),
    create_run_ok_written bucket oracle run_id now p resp effs h, ?_, ?_⟩
  · simp [run_record, dictGet]
  · simp [run_record, dictGet]

/-- C4 (witness): the amended theorem applied to a concrete registration
carrying the spec's example phone number. -/
theorem c4_phone_stored_verbatim_witness :
    ∃ rec, writtenRecords (create_run "b" (fun _ _ => Except.ok "u") "r4w" 0
        ⟨"p", "co", "cn", "e@x.com", "555-987-1234", "cr", "A", "v.mp4", none, "video/mp4",
         none, none, []⟩).2 = [("r4w", rec)] ∧
      dictGet rec "contact_phone_raw" = some (Value.vStr "555-987-1234") ∧
      dictGet rec "contact_phone" = none :=
  c4_phone_stored_verbatim "b" (fun _ _ => Except.ok "u") "r4w" 0
    ⟨"p", "co", "cn", "e@x.com", "555-987-1234", "cr", "A", "v.mp4", none, "video/mp4",
     none, none, []⟩
    ⟨"r4w", "p", "gs://b/runs/r4w/video/v.mp4", [],
      [⟨"v.mp4", "u", "gs://b/runs/r4w/video/v.mp4", "video_file"⟩]⟩
    (create_run "b" (fun _ _ => Except.ok "u") "r4w" 0
      ⟨"p", "co", "cn", "e@x.com", "555-987-1234", "cr", "A", "v.mp4", none, "video/mp4",
       none, none, []⟩).2
    (by decide)

/-- C6: a registration request whose video filename is empty after trimming
is rejected with a 400 validation error, with an empty effect trace: zero
signing calls and zero metadata writes. -/
theorem c6_empty_video_rejected (bucket : String) (oracle : SignOracle) (run_id : String)
    (now : Nat) (p : RunCreateRequest) (hv : pyStrip p.video_filename = "") :
    create_run bucket oracle run_id now p =
      (Except.error ⟨400, "video_filename must not be empty"⟩, []) := by
  simp [create_run, hv]

/-- C6 (witness): the rejection theorem applied to a request whose video
filename is whitespace only. -/
theorem c6_empty_video_rejected_witness :
    create_run "b" (fun _ _ => Except.ok "u") "r6" 0
      ⟨"p", "co", "cn", "e@x.com", "ph", "cr", "A", "   ", none, "video/mp4",
       none, none, ["a.pdf"]⟩ =
    (Except.error ⟨400, "video_filename must not be empty"⟩, []) :=
  c6_empty_video_rejected "b" (fun _ _ => Except.ok "u") "r6" 0
    ⟨"p", "co", "cn", "e@x.com", "ph", "cr", "A", "   ", none, "video/mp4",
     none, none, ["a.pdf"]⟩
    (by decide)

/-- C7: for every successful registration the video storage path is exactly
`gs://<bucket>/runs/<run_id>/video/<filename>` and each document path is
exactly `gs://<bucket>/runs/<run_id>/docs/<filename>`, and path derivation is
deterministic: a second call on identical inputs yields identical paths. -/
theorem c7_storage_path_convention (bucket : String) (oracle : SignOracle) (run_id : String)
    (now : Nat) (p : RunCreateRequest) (resp : RunCreateResponse) (effs : List Effect)
    (h : create_run bucket oracle run_id now p = (Except.ok resp, effs)) :
    resp.video_storage_path =
      "gs://" ++ bucket ++ "/" ++ ("runs/" ++ run_id ++ "/video/" ++ pyStrip p.video_filename) ∧
    resp.doc_storage_paths =
      ((p.doc_filenames.map pyStrip).filter (fun f => f ≠ "")).map
        (fun d => "gs://" ++ bucket ++ "/" ++ ("runs/" ++ run_id ++ "/docs/" ++ d)) ∧
    (∀ resp2 effs2, create_run bucket oracle run_id now p = (Except.ok resp2, effs2) →
      resp2.video_storage_path = resp.video_storage_path ∧
      resp2.doc_storage_paths = resp.doc_storage_paths) := by
  obtain ⟨vurl, docUrls, docPaths, docEffs, hv, ho, hrec, hresp, heffs⟩ :=
    create_run_ok bucket oracle run_id now p resp effs h
  obtain ⟨p1, p2, p3, p4, p5⟩ := signDocs_ok bucket oracle run_id _ 0 docUrls docPaths docEffs hrec
  subst hresp
  refine ⟨rfl, ?_, ?_⟩
  · simpa [gcs_path, doc_blob_name] using p1
  · intro resp2 effs2 h2
    have h3 := h.symm.trans h2
    simp only [Prod.mk.injEq, Except.ok.injEq] at h3
    obtain ⟨h4, h5⟩ := h3
    rw [← h4]
    exact ⟨rfl, rfl⟩

/-- C7 (witness): the path-convention theorem applied to a concrete
registration. -/
theorem c7_storage_path_convention_witness :
    (RunCreateResponse.mk "r7" "p" "gs://b/runs/r7/video/v.mp4"
        ["gs://b/runs/r7/docs/a.pdf"]
        [⟨"v.mp4", "u", "gs://b/runs/r7/video/v.mp4", "video_file"⟩,
         ⟨"a.pdf", "u", "gs://b/runs/r7/docs/a.pdf", "doc_file_0"⟩]).video_storage_path =
      "gs://" ++ "b" ++ "/" ++ ("runs/" ++ "r7" ++ "/video/" ++ pyStrip "v.mp4") ∧
    (RunCreateResponse.mk "r7" "p" "gs://b/runs/r7/video/v.mp4"
        ["gs://b/runs/r7/docs/a.pdf"]
        [⟨"v.mp4", "u", "gs://b/runs/r7/video/v.mp4", "video_file"⟩,
         ⟨"a.pdf", "u", "gs://b/runs/r7/docs/a.pdf", "doc_file_0"⟩]).doc_storage_paths =
      (((["a.pdf"] : List String).map pyStrip).filter (fun f => f ≠ "")).map
        (fun d => "gs://" ++ "b" ++ "/" ++ ("runs/" ++ "r7" ++ "/docs/" ++ d)) ∧
    (∀ resp2 effs2, create_run "b" (fun _ _ => Except.ok "u") "r7" 0
        ⟨"p", "co", "cn", "e@x.com", "ph", "cr", "A", "v.mp4", none, "video/mp4",
         none, none, ["a.pdf"]⟩ = (Except.ok resp2, effs2) →
      resp2.video_storage_path =
        (RunCreateResponse.mk "r7" "p" "gs://b/runs/r7/video/v.mp4"
          ["gs://b/runs/r7/docs/a.pdf"]
          [⟨"v.mp4", "u", "gs://b/runs/r7/video/v.mp4", "video_file"⟩,
           ⟨"a.pdf", "u", "gs://b/runs/r7/docs/a.pdf", "doc_file_0"⟩]).video_storage_path ∧
      resp2.doc_storage_paths =
        (RunCreateResponse.mk "r7" "p" "gs://b/runs/r7/video/v.mp4"
          ["gs://b/runs/r7/docs/a.pdf"]
          [⟨"v.mp4", "u", "gs://b/runs/r7/video/v.mp4", "video_file"⟩,
           ⟨"a.pdf", "u", "gs://b/runs/r7/docs/a.pdf", "doc_file_0"⟩]).doc_storage_paths) :=
  c7_storage_path_convention "b" (fun _ _ => Except.ok "u") "r7" 0
    ⟨"p", "co", "cn", "e@x.com", "ph", "cr", "A", "v.mp4", none, "video/mp4",
     none, none, ["a.pdf"]⟩
    (RunCreateResponse.mk "r7" "p" "gs://b/runs/r7/video/v.mp4"
        ["gs://b/runs/r7/docs/a.pdf"]
        [⟨"v.mp4", "u", "gs://b/runs/r7/video/v.mp4", "video_file"⟩,
         ⟨"a.pdf", "u", "gs://b/runs/r7/docs/a.pdf", "doc_file_0"⟩])
    (create_run "b" (fun _ _ => Except.ok "u") "r7" 0
      ⟨"p", "co", "cn", "e@x.com", "ph", "cr", "A", "v.mp4", none, "video/mp4",
       none, none, ["a.pdf"]⟩).2
    (by decide)

/-- C5 (counterexample to the claim as stated): the listing endpoint accepts
no limit parameter — a requested `limit=1` is discarded, and both records of
a two-record store are returned instead of the claimed clamped single
record. -/
theorem c5_counterexample :
    list_runs_endpoint (some 1) c5_store =
      [[("created_at", Value.vStr "2"), ("run_id", Value.vStr "rb")],
       [("created_at", Value.vStr "1"), ("run_id", Value.vStr "ra")]] ∧
    (list_runs_endpoint (some 1) c5_store).length = 2 ∧ ¬ (2 : Nat) ≤ 1 := by
  have hms : c5_store.mergeSort (fun a b => decide (createdAt b ≤ createdAt a)) = c5_store :=
    List.mergeSort_of_sorted (by decide)
  have hlist : list_runs_endpoint (some 1) c5_store =
      [[("created_at", Value.vStr "2"), ("run_id", Value.vStr "rb")],
       [("created_at", Value.vStr "1"), ("run_id", Value.vStr "ra")]] := by
    show list_runs c5_store = _
    unfold list_runs
    rw [hms]
    rfl
  exact ⟨hlist, by rw [hlist]; rfl, by decide⟩

/-- C5 (amended): `list_runs` takes no limit parameter — any requested limit
is ignored — and uses the fixed constant 50 (which lies in `[1,100]` and
matches the spec's allowed default); its output is, in order, the
serialization of at most 50 store records sorted by `created_at`
descending. -/
theorem c5_list_runs_fixed_limit (requestedLimit : Option Nat) (store : Store) :
    list_runs_endpoint requestedLimit store = list_runs store ∧
    ∃ docs : List (String × Dict),
      list_runs store = docs.map (fun e => _serialize_firestore_doc e.1 e.2) ∧
      docs.length = min 50 store.length ∧
      List.Pairwise (fun a b => createdAt b ≤ createdAt a) docs ∧
      ∀ e, e ∈ docs → e ∈ store := by
  refine ⟨rfl,
    (store.mergeSort (fun a b => decide (createdAt b ≤ createdAt a))).take 50,
    rfl, ?_, ?_, ?_⟩
  · rw [List.length_take, List.length_mergeSort]
  · have hp := @List.sorted_mergeSort (String × Dict)
      (fun a b => decide (createdAt b ≤ createdAt a))
      (fun a b c hab hbc => by
        simp only [decide_eq_true_eq] at hab hbc ⊢
        omega)
      (fun a b => by
        simp only [Bool.or_eq_true, decide_eq_true_eq]
        exact Nat.le_total _ _)
      store
    have hp2 := hp.sublist (List.take_sublist 50 _)
    exact hp2.imp (fun hx => of_decide_eq_true hx)
  · intro e he
    have h1 := List.take_sublist 50
      (store.mergeSort (fun a b => decide (createdAt b ≤ createdAt a)))
    exact List.mem_mergeSort.mp (h1.subset he)

theorem storeGet_map_set (id : String) (rec : Dict) :
    ∀ s : Store, s.any (fun e => e.1 = id) = true →
      storeGet (s.map (fun e => if e.1 = id then (id, rec) else e)) id = some rec := by
  intro s
  induction s with
  | nil => intro h; simp at h
  | cons e rest ih =>
    intro h
    simp only [List.map_cons]
    by_cases he : e.1 = id
    · rw [if_pos he]
      simp [storeGet]
    · rw [if_neg he]
      show (if e.1 = id then some e.2 else storeGet _ id) = some rec
      rw [if_neg he]
      apply ih
      simp only [List.any_cons, Bool.or_eq_true, decide_eq_true_eq] at h
      rcases h with h | h
      · exact absurd h he
      · exact h

theorem storeGet_append_new (id : String) (rec : Dict) :
    ∀ s : Store, s.any (fun e => e.1 = id) = false →
      storeGet (s ++ [(id, rec)]) id = some rec := by
  intro s
  induction s with
  | nil => intro h; simp [storeGet]
  | cons e rest ih =>
    intro h
    simp only [List.any_cons, Bool.or_eq_false_iff, decide_eq_false_iff_not] at h
    obtain ⟨he, hrest⟩ := h
    show (if e.1 = id then some e.2 else storeGet _ id) = some rec
    rw [if_neg he]
    apply ih
    simpa using hrest

theorem storeGet_storeSet (s : Store) (id : String) (rec : Dict) :
    storeGet (storeSet s id rec) id = some rec := by
  unfold storeSet
  by_cases h : s.any (fun e => e.1 = id) = true
  · rw [if_pos h]
    exact storeGet_map_set id rec s h
  · rw [if_neg h]
    exact storeGet_append_new id rec s (Bool.not_eq_true _ |>.mp h)

/-- C8: for every successful registration, exactly one record is persisted,
its `video_storage_path` and `doc_storage_paths` are exactly those of the
response, the response's signed URLs carry, in order, exactly the storage
paths `video_storage_path :: doc_storage_paths` (hence with equal occurrence
counts in both directions), and fetching the run by the returned `run_id`
from any store the record was written to returns matching path fields. -/
theorem c8_response_persistence_correspondence (bucket : String) (oracle : SignOracle)
    (run_id : String) (now : Nat) (p : RunCreateRequest) (resp : RunCreateResponse)
    (effs : List Effect)
    (h : create_run bucket oracle run_id now p = (Except.ok resp, effs)) :
    ∃ rec, writtenRecords effs = [(run_id, rec)] ∧
      dictGet rec "video_storage_path" = some (Value.vStr resp.video_storage_path) ∧
      dictGet rec "doc_storage_paths" = some (Value.vStrList resp.doc_storage_paths) ∧
      resp.upload_urls.map SignedURLInfo.storage_path =
        resp.video_storage_path :: resp.doc_storage_paths ∧
      (∀ s : String, (resp.video_storage_path :: resp.doc_storage_paths).count s =
        (resp.upload_urls.map SignedURLInfo.storage_path).count s) ∧
      (∀ store : Store, ∃ doc,
        get_run (storeSet store run_id rec) run_id = Except.ok doc ∧
        dictGet doc "video_storage_path" = some (Value.vStr resp.video_storage_path) ∧
        dictGet doc "doc_storage_paths" = some (Value.vStrList resp.doc_storage_paths)) := by
  have hwr := create_run_ok_written bucket oracle run_id now p resp effs h
  obtain ⟨vurl, docUrls, docPaths, docEffs, hv, ho, hrec, hresp, heffs⟩ :=
    create_run_ok bucket oracle run_id now p resp effs h
  obtain ⟨p1, p2, p3, p4, p5⟩ := signDocs_ok bucket oracle run_id _ 0 docUrls docPaths docEffs hrec
  have hmap : resp.upload_urls.map SignedURLInfo.storage_path =
      resp.video_storage_path :: resp.doc_storage_paths := by
    rw [hresp]
    simp only [List.map_cons]
    rw [p2]
  refine ⟨run_record bucket run_id now p
      (gcs_path bucket (video_blob_name run_id (pyStrip p.video_filename)))
      resp.doc_storage_paths
      ((p.doc_filenames.map pyStrip).filter (fun f => f ≠ "")),
    hwr, ?_, ?_, hmap, ?_, ?_⟩
  · have hvsp : resp.video_storage_path =
        gcs_path bucket (video_blob_name run_id (pyStrip p.video_filename)) := by
      rw [hresp]
    rw [hvsp]
    simp [run_record, dictGet]
  · simp [run_record, dictGet]
  · intro s
    rw [hmap]
  · intro store
    refine ⟨_serialize_firestore_doc run_id
      (run_record bucket run_id now p
        (gcs_path bucket (video_blob_name run_id (pyStrip p.video_filename)))
        resp.doc_storage_paths
        ((p.doc_filenames.map pyStrip).filter (fun f => f ≠ ""))), ?_, ?_, ?_⟩
    · unfold get_run
      rw [storeGet_storeSet]
    · have hvsp : resp.video_storage_path =
          gcs_path bucket (video_blob_name run_id (pyStrip p.video_filename)) := by
        rw [hresp]
      rw [hvsp]
      simp [run_record, _serialize_firestore_doc, dictSet, dictGet]
    · simp [run_record, _serialize_firestore_doc, dictSet, dictGet]

/-- C8 (witness): the correspondence theorem applied to a concrete
registration with one document. -/
theorem c8_response_persistence_correspondence_witness :
    ∃ rec, writtenRecords (create_run "b" (fun _ _ => Except.ok "u") "r8" 3
        ⟨"p", "co", "cn", "e@x.com", "ph", "cr", "A", "v.mp4", none, "video/mp4",
         none, none, ["a.pdf"]⟩).2 = [("r8", rec)] ∧
      dictGet rec "video_storage_path" =
        some (Value.vStr (RunCreateResponse.mk "r8" "p" "gs://b/runs/r8/video/v.mp4"
          ["gs://b/runs/r8/docs/a.pdf"]
          [⟨"v.mp4", "u", "gs://b/runs/r8/video/v.mp4", "video_file"⟩,
           ⟨"a.pdf", "u", "gs://b/runs/r8/docs/a.pdf", "doc_file_0"⟩]).video_storage_path) ∧
      dictGet rec "doc_storage_paths" =
        some (Value.vStrList (RunCreateResponse.mk "r8" "p" "gs://b/runs/r8/video/v.mp4"
          ["gs://b/runs/r8/docs/a.pdf"]
          [⟨"v.mp4", "u", "gs://b/runs/r8/video/v.mp4", "video_file"⟩,
           ⟨"a.pdf", "u", "gs://b/runs/r8/docs/a.pdf", "doc_file_0"⟩]).doc_storage_paths) ∧
      (RunCreateResponse.mk "r8" "p" "gs://b/runs/r8/video/v.mp4"
          ["gs://b/runs/r8/docs/a.pdf"]
          [⟨"v.mp4", "u", "gs://b/runs/r8/video/v.mp4", "video_file"⟩,
           ⟨"a.pdf", "u", "gs://b/runs/r8/docs/a.pdf", "doc_file_0"⟩]).upload_urls.map
          SignedURLInfo.storage_path =
        (RunCreateResponse.mk "r8" "p" "gs://b/runs/r8/video/v.mp4"
          ["gs://b/runs/r8/docs/a.pdf"]
          [⟨"v.mp4", "u", "gs://b/runs/r8/video/v.mp4", "video_file"⟩,
           ⟨"a.pdf", "u", "gs://b/runs/r8/docs/a.pdf", "doc_file_0"⟩]).video_storage_path ::
          (RunCreateResponse.mk "r8" "p" "gs://b/runs/r8/video/v.mp4"
            ["gs://b/runs/r8/docs/a.pdf"]
            [⟨"v.mp4", "u", "gs://b/runs/r8/video/v.mp4", "video_file"⟩,
             ⟨"a.pdf", "u", "gs://b/runs/r8/docs/a.pdf", "doc_file_0"⟩]).doc_storage_paths ∧
      (∀ s : String,
        ((RunCreateResponse.mk "r8" "p" "gs://b/runs/r8/video/v.mp4"
            ["gs://b/runs/r8/docs/a.pdf"]
            [⟨"v.mp4", "u", "gs://b/runs/r8/video/v.mp4", "video_file"⟩,
             ⟨"a.pdf", "u", "gs://b/runs/r8/docs/a.pdf", "doc_file_0"⟩]).video_storage_path ::
          (RunCreateResponse.mk "r8" "p" "gs://b/runs/r8/video/v.mp4"
            ["gs://b/runs/r8/docs/a.pdf"]
            [⟨"v.mp4", "u", "gs://b/runs/r8/video/v.mp4", "video_file"⟩,
             ⟨"a.pdf", "u", "gs://b/runs/r8/docs/a.pdf", "doc_file_0"⟩]).doc_storage_paths).count s =
        ((RunCreateResponse.mk "r8" "p" "gs://b/runs/r8/video/v.mp4"
            ["gs://b/runs/r8/docs/a.pdf"]
            [⟨"v.mp4", "u", "gs://b/runs/r8/video/v.mp4", "video_file"⟩,
             ⟨"a.pdf", "u", "gs://b/runs/r8/docs/a.pdf", "doc_file_0"⟩]).upload_urls.map
          SignedURLInfo.storage_path).count s) ∧
      (∀ store : Store, ∃ doc,
        get_run (storeSet store "r8" rec) "r8" = Except.ok doc ∧
        dictGet doc "video_storage_path" =
          some (Value.vStr (RunCreateResponse.mk "r8" "p" "gs://b/runs/r8/video/v.mp4"
            ["gs://b/runs/r8/docs/a.pdf"]
            [⟨"v.mp4", "u", "gs://b/runs/r8/video/v.mp4", "video_file"⟩,
             ⟨"a.pdf", "u", "gs://b/runs/r8/docs/a.pdf", "doc_file_0"⟩]).video_storage_path) ∧
        dictGet doc "doc_storage_paths" =
          some (Value.vStrList (RunCreateResponse.mk "r8" "p" "gs://b/runs/r8/video/v.mp4"
            ["gs://b/runs/r8/docs/a.pdf"]
            [⟨"v.mp4", "u", "gs://b/runs/r8/video/v.mp4", "video_file"⟩,
             ⟨"a.pdf", "u", "gs://b/runs/r8/docs/a.pdf", "doc_file_0"⟩]).doc_storage_paths)) :=
  c8_response_persistence_correspondence "b" (fun _ _ => Except.ok "u") "r8" 3
    ⟨"p", "co", "cn", "e@x.com", "ph", "cr", "A", "v.mp4", none, "video/mp4",
     none, none, ["a.pdf"]⟩
    (RunCreateResponse.mk "r8" "p" "gs://b/runs/r8/video/v.mp4"
      ["gs://b/runs/r8/docs/a.pdf"]
      [⟨"v.mp4", "u", "gs://b/runs/r8/video/v.mp4", "video_file"⟩,
       ⟨"a.pdf", "u", "gs://b/runs/r8/docs/a.pdf", "doc_file_0"⟩])
    (create_run "b" (fun _ _ => Except.ok "u") "r8" 3
      ⟨"p", "co", "cn", "e@x.com", "ph", "cr", "A", "v.mp4", none, "video/mp4",
       none, none, ["a.pdf"]⟩).2
    (by decide)

/-- C9: duplicate non-empty document filenames are neither rejected nor
deduplicated: registration succeeds (given a working signer), every
occurrence gets its own upload entry with a distinct key, the storage path
is a function of the filename alone (so duplicate occurrences address the
identical object), and `doc_storage_paths` repeats the path once per
occurrence. -/
theorem c9_duplicate_docs (bucket : String) (oracle : SignOracle) (run_id : String) (now : Nat)
    (p : RunCreateRequest)
    (hv : pyStrip p.video_filename ≠ "")
    (hok : ∀ n c, ∃ u, oracle n c = Except.ok u) :
    ∃ resp effs, create_run bucket oracle run_id now p = (Except.ok resp, effs) ∧
      resp.upload_urls.length =
        1 + ((p.doc_filenames.map pyStrip).filter (fun f => f ≠ "")).length ∧
      resp.doc_storage_paths =
        ((p.doc_filenames.map pyStrip).filter (fun f => f ≠ "")).map
          (fun d => gcs_path bucket (doc_blob_name run_id d)) ∧
      (resp.upload_urls.map SignedURLInfo.key).Nodup ∧
      (∀ i j, i < ((p.doc_filenames.map pyStrip).filter (fun f => f ≠ "")).length →
        j < ((p.doc_filenames.map pyStrip).filter (fun f => f ≠ "")).length →
        ((p.doc_filenames.map pyStrip).filter (fun f => f ≠ "")).getD i "" =
          ((p.doc_filenames.map pyStrip).filter (fun f => f ≠ "")).getD j "" →
        resp.doc_storage_paths.getD i "" = resp.doc_storage_paths.getD j "") := by
  obtain ⟨vurl, hvurl⟩ := hok (video_blob_name run_id (pyStrip p.video_filename))
    (some (pyOrStr p.content_type "video/*"))
  obtain ⟨docUrls, docPaths, docEffs, hsd⟩ := signDocs_total bucket oracle run_id hok
    ((p.doc_filenames.map pyStrip).filter (fun f => f ≠ "")) 0
  obtain ⟨p1, p2, p3, p4, p5⟩ := signDocs_ok bucket oracle run_id _ 0 docUrls docPaths docEffs hsd
  refine ⟨⟨run_id, p.project_id,
      gcs_path bucket (video_blob_name run_id (pyStrip p.video_filename)), docPaths,
      ⟨pyStrip p.video_filename, vurl,
        gcs_path bucket (video_blob_name run_id (pyStrip p.video_filename)),
        "video_file"⟩ :: docUrls⟩,
    Effect.signCall (video_blob_name run_id (pyStrip p.video_filename))
        (some (pyOrStr p.content_type "video/*")) ::
      (docEffs ++ [Effect.firestoreSet run_id
        (run_record bucket run_id now p
          (gcs_path bucket (video_blob_name run_id (pyStrip p.video_filename)))
          docPaths ((p.doc_filenames.map pyStrip).filter (fun f => f ≠ "")))]),
    ?_, ?_, ?_, ?_, ?_⟩
  · simp only [create_run]
    rw [if_neg hv, hvurl, hsd]
  · simp only [List.length_cons]
    have h3 := congrArg List.length p3
    simp only [List.length_map] at h3
    omega
  · exact p1
  · simp only [List.map_cons]
    rw [p4]
    refine List.Pairwise.cons ?_ ?_
    · intro k hk h2
      rw [← List.range_eq_range'] at hk
      obtain ⟨i, hi, hik⟩ := List.mem_map.mp hk
      exact docKey_ne_video (Nat.repr i) (hik.trans h2.symm)
    · rw [← List.range_eq_range']
      exact (List.nodup_range _).map docKey_injective
  · intro i j hi hj hij
    rw [p1]
    have hi2 : i < (((p.doc_filenames.map pyStrip).filter (fun f => f ≠ "")).map
        (fun d => gcs_path bucket (doc_blob_name run_id d))).length := by simpa using hi
    have hj2 : j < (((p.doc_filenames.map pyStrip).filter (fun f => f ≠ "")).map
        (fun d => gcs_path bucket (doc_blob_name run_id d))).length := by simpa using hj
    rw [List.getD_eq_getElem _ _ hi2, List.getD_eq_getElem _ _ hj2,
        List.getElem_map, List.getElem_map]
    rw [List.getD_eq_getElem _ _ hi, List.getD_eq_getElem _ _ hj] at hij
    rw [hij]

/-- C9 (witness): the duplicate-handling theorem applied to a request whose
document list repeats `a.pdf` twice. -/
theorem c9_duplicate_docs_witness :
    ∃ resp effs, create_run "b" (fun _ _ => Except.ok "u") "r9" 0
        ⟨"p", "co", "cn", "e@x.com", "ph", "cr", "A", "v.mp4", none, "video/mp4",
         none, none, ["a.pdf", "a.pdf"]⟩ = (Except.ok resp, effs) ∧
      resp.upload_urls.length =
        1 + (((["a.pdf", "a.pdf"] : List String).map pyStrip).filter (fun f => f ≠ "")).length ∧
      resp.doc_storage_paths =
        (((["a.pdf", "a.pdf"] : List String).map pyStrip).filter (fun f => f ≠ "")).map
          (fun d => gcs_path "b" (doc_blob_name "r9" d)) ∧
      (resp.upload_urls.map SignedURLInfo.key).Nodup ∧
      (∀ i j, i < (((["a.pdf", "a.pdf"] : List String).map pyStrip).filter
          (fun f => f ≠ "")).length →
        j < (((["a.pdf", "a.pdf"] : List String).map pyStrip).filter (fun f => f ≠ "")).length →
        ((((["a.pdf", "a.pdf"] : List String).map pyStrip).filter (fun f => f ≠ ""))).getD i "" =
          ((((["a.pdf", "a.pdf"] : List String).map pyStrip).filter (fun f => f ≠ ""))).getD j "" →
        resp.doc_storage_paths.getD i "" = resp.doc_storage_paths.getD j "") :=
  c9_duplicate_docs "b" (fun _ _ => Except.ok "u") "r9" 0
    ⟨"p", "co", "cn", "e@x.com", "ph", "cr", "A", "v.mp4", none, "video/mp4",
     none, none, ["a.pdf", "a.pdf"]⟩
    (by decide) (fun n c => ⟨"u", rfl⟩)

/-- C10: a registration with an empty `content_type` is not rejected for
that reason: the video signing call is made with the fallback constraint
`video/*`, and a successful registration persists the empty string verbatim
in the record's `content_type` field. -/
theorem c10_empty_content_type (bucket : String) (oracle : SignOracle) (run_id : String)
    (now : Nat) (p : RunCreateRequest)
    (hct : p.content_type = "") (hv : pyStrip p.video_filename ≠ "") :
    (∃ rest, (create_run bucket oracle run_id now p).2 =
      Effect.signCall (video_blob_name run_id (pyStrip p.video_filename))
        (some "video/*") :: rest) ∧
    (∀ resp effs, create_run bucket oracle run_id now p = (Except.ok resp, effs) →
      ∃ rec, writtenRecords effs = [(run_id, rec)] ∧
        dictGet rec "content_type" = some (Value.vStr "")) := by
  have hctv : pyOrStr p.content_type "video/*" = "video/*" := by
    simp [pyOrStr, hct]
  constructor
  · simp only [create_run]
    rw [if_neg hv, hctv]
    cases ho : oracle (video_blob_name run_id (pyStrip p.video_filename)) (some "video/*") with
    | error e => exact ⟨[], rfl⟩
    | ok vurl =>
      rcases hrec : signDocs bucket oracle run_id 0
          ((p.doc_filenames.map pyStrip).filter (fun f => f ≠ "")) with ⟨res, docEffs⟩
      cases res with
      | error ex => exact ⟨docEffs, rfl⟩
      | ok pr =>
        rcases pr with ⟨docUrls, docPaths⟩
        exact ⟨_, rfl⟩
  · intro resp effs h
    refine ⟨run_record bucket run_id now p
        (gcs_path bucket (video_blob_name run_id (pyStrip p.video_filename)))
        resp.doc_storage_paths
        ((p.doc_filenames.map pyStrip).filter (fun f => f ≠ "")),
      create_run_ok_written bucket oracle run_id now p resp effs h, ?_⟩
    simp [run_record, dictGet, hct]

/-- C10 (witness): the empty-content-type theorem applied to a concrete
request with `content_type = ""`. -/
theorem c10_empty_content_type_witness :
    (∃ rest, (create_run "b" (fun _ _ => Except.ok "u") "r10" 0
        ⟨"p", "co", "cn", "e@x.com", "ph", "cr", "A", "v.mp4", none, "",
         none, none, []⟩).2 =
      Effect.signCall (video_blob_name "r10" (pyStrip "v.mp4")) (some "video/*") :: rest) ∧
    (∀ resp effs, create_run "b" (fun _ _ => Except.ok "u") "r10" 0
        ⟨"p", "co", "cn", "e@x.com", "ph", "cr", "A", "v.mp4", none, "",
         none, none, []⟩ = (Except.ok resp, effs) →
      ∃ rec, writtenRecords effs = [("r10", rec)] ∧
        dictGet rec "content_type" = some (Value.vStr "")) :=
  c10_empty_content_type "b" (fun _ _ => Except.ok "u") "r10" 0
    ⟨"p", "co", "cn", "e@x.com", "ph", "cr", "A", "v.mp4", none, "",
     none, none, []⟩
    (by decide) (by decide)

example :
    (create_run "b" (fun _ _ => Except.ok "u") "r" 7
      ⟨"p", "co", "cn", "ce", "ph", "cr", "A", " v.mp4 ", none, "video/mp4",
       none, none, ["a.pdf", "", "b.pdf"]⟩).1 =
    Except.ok ⟨"r", "p", "gs://b/runs/r/video/v.mp4",
      ["gs://b/runs/r/docs/a.pdf", "gs://b/runs/r/docs/b.pdf"],
      [⟨"v.mp4", "u", "gs://b/runs/r/video/v.mp4", "video_file"⟩,
       ⟨"a.pdf", "u", "gs://b/runs/r/docs/a.pdf", "doc_file_0"⟩,
       ⟨"b.pdf", "u", "gs://b/runs/r/docs/b.pdf", "doc_file_1"⟩]⟩ := by
  decide
